import Mathlib

/-!
Verification of the builtin procedures of the `lrs` (telescope) interpreter.

The builtins are shallowly embedded from `src/ops.rs`, the error taxonomy from
`src/error.rs`, and the read-eval-print loop step from `src/main.rs`.

The repository's `types.rs`, `eval.rs` and `util.rs` are not present in the
source tree; the pieces of them that the builtins use (`Expr` with its helper
methods, `Env`, `ensure_args`, `ensure_min_args`, the `Display` rendering) are
modelled from the specification, as marked on each such definition.

Numbers: the interpreter's `i64` values are modelled as `Int` with two's
complement wrapping (`wrap64`) where the source performs release-mode wrapping
arithmetic, and `f64` values are modelled exactly as extended rationals
(`FloatVal`): finite values as `Rat` plus the IEEE specials `inf`, `neginf`
and `nan`.  f64 rounding, overflow-to-infinity and signed zero are not
modelled; every concrete instance appearing in the theorems below is exact.

Rust panics (out-of-bounds slice indexing, division overflow) are modelled
explicitly by the `Outcome.panic` constructor, since several claims turn on
whether a builtin can panic.
-/

namespace Telescope

/-- `f64` modelled exactly: finite values as rationals together with the IEEE
special values. Rounding, overflow and signed zero are not modelled. -/
inductive FloatVal where
  | finite (q : Rat)
  | inf
  | neginf
  | nan
deriving DecidableEq, Repr

namespace FloatVal

/-- IEEE addition restricted to the exact fragment. -/
def add : FloatVal → FloatVal → FloatVal
  | nan, _ => nan
  | _, nan => nan
  | inf, neginf => nan
  | neginf, inf => nan
  | inf, _ => inf
  | _, inf => inf
  | neginf, _ => neginf
  | _, neginf => neginf
  | finite a, finite b => finite (a + b)

/-- IEEE subtraction restricted to the exact fragment. -/
def sub : FloatVal → FloatVal → FloatVal
  | nan, _ => nan
  | _, nan => nan
  | inf, inf => nan
  | neginf, neginf => nan
  | inf, _ => inf
  | _, inf => neginf
  | neginf, _ => neginf
  | _, neginf => inf
  | finite a, finite b => finite (a - b)

/-- IEEE multiplication restricted to the exact fragment. -/
def mul : FloatVal → FloatVal → FloatVal
  | nan, _ => nan
  | _, nan => nan
  | inf, inf => inf
  | inf, neginf => neginf
  | neginf, inf => neginf
  | neginf, neginf => inf
  | inf, finite b => if b = 0 then nan else if 0 < b then inf else neginf
  | finite a, inf => if a = 0 then nan else if 0 < a then inf else neginf
  | neginf, finite b => if b = 0 then nan else if 0 < b then neginf else inf
  | finite a, neginf => if a = 0 then nan else if 0 < a then neginf else inf
  | finite a, finite b => finite (a * b)

/-- IEEE division restricted to the exact fragment (signed zero not
modelled: a nonzero finite value divided by zero takes the sign of the
numerator, matching `x / +0.0`). -/
def div : FloatVal → FloatVal → FloatVal
  | nan, _ => nan
  | _, nan => nan
  | inf, inf => nan
  | inf, neginf => nan
  | neginf, inf => nan
  | neginf, neginf => nan
  | inf, finite b => if 0 ≤ b then inf else neginf
  | neginf, finite b => if 0 ≤ b then neginf else inf
  | finite _, inf => finite 0
  | finite _, neginf => finite 0
  | finite a, finite b =>
    if b = 0 then
      if a = 0 then nan else if 0 < a then inf else neginf
    else finite (a / b)

/-- IEEE negation. -/
def neg : FloatVal → FloatVal
  | nan => nan
  | inf => neginf
  | neginf => inf
  | finite a => finite (-a)

/-- IEEE strict order: any comparison involving `nan` is false. -/
def lt : FloatVal → FloatVal → Bool
  | nan, _ => false
  | _, nan => false
  | neginf, neginf => false
  | neginf, _ => true
  | _, neginf => false
  | inf, _ => false
  | finite _, inf => true
  | finite a, finite b => decide (a < b)

/-- IEEE non-strict order: any comparison involving `nan` is false. -/
def le : FloatVal → FloatVal → Bool
  | nan, _ => false
  | _, nan => false
  | neginf, _ => true
  | inf, inf => true
  | inf, _ => false
  | finite _, neginf => false
  | finite _, inf => true
  | finite a, finite b => decide (a ≤ b)

end FloatVal

/-- The error taxonomy, from `src/error.rs`.  The payloads of the foreign
`Io` and `Parse` wrappers are external library types and are irrelevant to
the builtins, so they carry no data here. -/
inductive ErrorKind where
  | Msg (s : String)
  | IoError
  | ParseError
  | Eof
  | Exit (code : Int)
deriving DecidableEq, Repr

/-- Modelled from the spec: the unified value/AST type `Expr` (`types.rs` is
absent from the source tree). Variants per §3 of the spec: `Nil`, `Int`,
`Flt`, `Str`, `Bool`, `List`, `Vector`, `Function`.  A `Function` value
carries only its diagnostics name: the spec's invariant says the name is never
used for dispatch, and none of the operations verified here inspect the
procedure itself, so the procedure pointer / lambda body is not represented. -/
inductive Expr where
  | Nil
  | Int (n : Int)
  | Flt (x : FloatVal)
  | Str (s : String)
  | Bool (b : Bool)
  | List (l : List Expr)
  | Vector (v : List Expr)
  | Function (name : String)
deriving Repr

mutual

/-- Modelled from the spec: structural equality on `Expr` (Rust `PartialEq`,
used by the `=` builtin; the spec calls it "structural equality of any two
same-shaped values").  The one place this model can differ from `f64`'s
`PartialEq` is `nan == nan`, which no claim exercises. -/
def beq : Expr → Expr → Bool
  | .Nil, .Nil => true
  | .Int a, .Int b => a == b
  | .Flt a, .Flt b => a == b
  | .Str a, .Str b => a == b
  | .Bool a, .Bool b => a == b
  | .List a, .List b => beqList a b
  | .Vector a, .Vector b => beqList a b
  | .Function a, .Function b => a == b
  | _, _ => false

/-- Elementwise structural equality of expression sequences. -/
def beqList : List Expr → List Expr → Bool
  | [], [] => true
  | a :: as_, b :: bs => beq a b && beqList as_ bs
  | _, _ => false

end

/-- Modelled from the spec: `Expr::is_num`, true exactly on the numeric
variants `Int` and `Flt`. -/
def is_num : Expr → Bool
  | .Int _ => true
  | .Flt _ => true
  | _ => false

/-- Modelled from the spec: `Expr::is_flt`, true exactly on `Flt`. -/
def is_flt : Expr → Bool
  | .Flt _ => true
  | _ => false

/-- Modelled from the spec: `Expr::boolean`, `Some b` exactly on a `Bool`
value ("strictly boolean-typed, not merely truthy"). -/
def boolean : Expr → Option Bool
  | .Bool b => some b
  | _ => none

mutual

/-- Modelled from the spec: the `Display` rendering (§6: atoms render as
their literal value, sequences as space-separated elements in delimiters).
Only the text of diagnostic messages depends on it; no claim constrains the
exact rendering. -/
def display : Expr → String
  | .Nil => "nil"
  | .Int n => toString n
  | .Flt (FloatVal.finite q) => toString q
  | .Flt FloatVal.inf => "inf"
  | .Flt FloatVal.neginf => "-inf"
  | .Flt FloatVal.nan => "NaN"
  | .Str s => "\"" ++ s ++ "\""
  | .Bool true => "true"
  | .Bool false => "false"
  | .List l => "(" ++ String.intercalate " " (displayList l) ++ ")"
  | .Vector v => "[" ++ String.intercalate " " (displayList v) ++ "]"
  | .Function name => "#[" ++ name ++ "]"

/-- Renders each element of a sequence. -/
def displayList : List Expr → List String
  | [] => []
  | e :: es => display e :: displayList es

end

/-- Modelled from the spec: an environment frame, a mapping from symbol to
`Expr` with an optional parent (§4.2).  Every builtin verified here ignores
its environment argument (`_env` in the source), so only the shape matters. -/
inductive Env where
  | frame (bindings : List (String × Expr)) (parent : Option Env)

/-- The empty environment, used to instantiate theorems. -/
def env0 : Env := .frame [] none

/-- The result of invoking a builtin: a Rust `Result<Expr>` (`ok`/`err`),
extended with `panic` for the out-of-bounds indexing and division-overflow
panics the source can actually hit. -/
inductive Outcome where
  | ok (e : Expr)
  | err (k : ErrorKind)
  | panic (msg : String)
deriving Repr

/-- True exactly on `err`. -/
def Outcome.isErr : Outcome → Bool
  | .err _ => true
  | _ => false

/-- Result type of the integer/float closures handed to `numeric_op`:
a Rust `Result<T>` extended with `panic` (the `-`/`/` closures index into
their slice and divide, both of which can panic). -/
inductive NumRes (α : Type) where
  | ok (a : α)
  | err (k : ErrorKind)
  | panic (msg : String)

/-- Modelled from the spec: `ensure_args` from the absent `util.rs` —
builtins "enforce their own arity … and return a typed error on violation"
(§4.3), here an exact argument count.  The message text is not recorded in
the available sources. -/
def ensure_args (name : String) (args : List Expr) (count : Nat) :
    Except ErrorKind Unit :=
  if args.length = count then .ok ()
  else .error (.Msg (name ++ " expected " ++ toString count ++ " arguments"))

/-- Modelled from the spec: `ensure_min_args` from the absent `util.rs`,
a minimum argument count (the `-` and `/` builtins accept one or more). -/
def ensure_min_args (name : String) (args : List Expr) (count : Nat) :
    Except ErrorKind Unit :=
  if count ≤ args.length then .ok ()
  else .error (.Msg (name ++ " expected at least " ++ toString count ++
    " arguments"))

/-- Two's complement wrapping into `i64`, the release-mode semantics of the
source's integer arithmetic. -/
def wrap64 (z : Int) : Int := (z + 2 ^ 63) % 2 ^ 64 - 2 ^ 63

/-- `i64 as f64` / the float view of an argument already checked to be
numeric (`ops.rs` marks the remaining case `unreachable!`; the guard in
`numeric_op` ensures it is never taken, here it returns `nan`). -/
def toFlt : Expr → FloatVal
  | .Int y => .finite y
  | .Flt y => y
  | _ => .nan

/-- The integer view of an argument already checked to be an `Int`
(`ops.rs` marks the remaining case `unreachable!`; the guards in
`numeric_op` ensure it is never taken, here it returns `0`). -/
def toInt : Expr → Int
  | .Int y => y
  | _ => 0

/-- Lifts a closure result into a builtin outcome via the given wrapper
(the `.map(Expr::from)` in `ops.rs`). -/
def NumRes.toOutcome {α : Type} (f : α → Expr) : NumRes α → Outcome
  | .ok a => .ok (f a)
  | .err k => .err k
  | .panic m => .panic m

/-- `numeric_op` from `ops.rs`: check all arguments numeric; promote to the
float closure if any is a float, otherwise run the integer closure; else a
type error. -/
def numeric_op (name : String) (args : List Expr)
    (fn_int : List Int → NumRes Int)
    (fn_flt : List FloatVal → NumRes FloatVal) : Outcome :=
  if args.all is_num then
    if args.any is_flt then
      (fn_flt (args.map toFlt)).toOutcome Expr.Flt
    else
      (fn_int (args.map toInt)).toOutcome Expr.Int
  else .err (.Msg ("#[" ++ name ++ "] expected numeric"))

/-- `add` from `ops.rs`: `numeric_op` with i64 sum (wrapping) and f64 sum. -/
def add (args : List Expr) (_env : Env) : Outcome :=
  numeric_op "+" args
    (fun ints => .ok (ints.foldl (fun a b => wrap64 (a + b)) 0))
    (fun floats => .ok (floats.foldl FloatVal.add (.finite 0)))

/-- `sub` from `ops.rs`: at least one argument; all numeric; one argument
negates; otherwise fold subtraction from the first argument. -/
def sub (args : List Expr) (_env : Env) : Outcome :=
  match ensure_min_args "-" args 1 with
  | .error e => .err e
  | .ok () =>
    if !(args.all is_num) then .err (.Msg "#[-] expected numeric")
    else if args.length = 1 then
      match args with
      | Expr.Int x :: _ => .ok (.Int (wrap64 (-x)))
      | Expr.Flt x :: _ => .ok (.Flt x.neg)
      | _ :: _ => .err (.Msg "invalid type")
      | [] => .panic "index out of bounds"
    else
      numeric_op "-" args
        (fun ints =>
          match ints with
          | x :: rest_ => .ok (rest_.foldl (fun a b => wrap64 (a - b)) x)
          | [] => .panic "index out of bounds")
        (fun floats =>
          match floats with
          | x :: rest_ => .ok (rest_.foldl FloatVal.sub x)
          | [] => .panic "index out of bounds")

/-- `mul` from `ops.rs`: `numeric_op` with i64 product (wrapping) and f64
product. -/
def mul (args : List Expr) (_env : Env) : Outcome :=
  numeric_op "*" args
    (fun ints => .ok (ints.foldl (fun a b => wrap64 (a * b)) 1))
    (fun floats => .ok (floats.foldl FloatVal.mul (.finite 1)))

/-- The `fold_results` loop of integer division in `div`: each divisor is
checked for zero (error), the division itself panics on i64 overflow
(`i64::MIN / -1`), otherwise t-division (Rust `/`). -/
def int_div_fold (x : Int) : List Int → NumRes Int
  | [] => .ok x
  | d :: ds =>
    if d = 0 then .err (.Msg "division by zero")
    else if x = -(2 ^ 63) ∧ d = -1 then .panic "attempt to divide with overflow"
    else int_div_fold (Int.tdiv x d) ds

/-- `div` from `ops.rs`: at least one argument; all numeric; ONE argument
computes the float reciprocal `1.0 / x` (also for an `Int` argument, with no
zero guard); otherwise `numeric_op` with zero-checked integer division and
unguarded float division. -/
def div (args : List Expr) (_env : Env) : Outcome :=
  match ensure_min_args "[/]" args 1 with
  | .error e => .err e
  | .ok () =>
    if !(args.all is_num) then .err (.Msg "#[-] expected numeric")
    else if args.length = 1 then
      match args with
      | Expr.Int x :: _ => .ok (.Flt (FloatVal.div (.finite 1) (.finite x)))
      | Expr.Flt x :: _ => .ok (.Flt (FloatVal.div (.finite 1) x))
      | _ :: _ => .err (.Msg "invalid type")
      | [] => .panic "index out of bounds"
    else
      numeric_op "/" args
        (fun ints =>
          match ints with
          | x :: rest_ => int_div_fold x rest_
          | [] => .panic "index out of bounds")
        (fun floats =>
          match floats with
          | x :: rest_ => .ok (rest_.foldl FloatVal.div x)
          | [] => .panic "index out of bounds")

/-- `equal` from `ops.rs`: exactly two arguments, structural equality. -/
def equal (args : List Expr) (_env : Env) : Outcome :=
  match ensure_args "[=]" args 2 with
  | .error e => .err e
  | .ok () =>
    match args with
    | a :: b :: _ => .ok (.Bool (beq a b))
    | _ => .panic "index out of bounds"

/-- The "comparison undefined" diagnostic text shared by the four ordering
builtins. -/
def cmp_undef_msg (a b : Expr) : ErrorKind :=
  .Msg ("comparison undefined for: " ++ display a ++ ", " ++ display b)

/-- `less` from `ops.rs`: exactly two arguments; defined for Int/Int,
Flt/Flt, Str/Str; every other pairing is a comparison-undefined error. -/
def less (args : List Expr) (_env : Env) : Outcome :=
  match ensure_args "[<]" args 2 with
  | .error e => .err e
  | .ok () =>
    match args with
    | Expr.Int a :: Expr.Int b :: _ => .ok (.Bool (decide (a < b)))
    | Expr.Flt a :: Expr.Flt b :: _ => .ok (.Bool (a.lt b))
    | Expr.Str a :: Expr.Str b :: _ => .ok (.Bool (decide (a < b)))
    | a :: b :: _ => .err (cmp_undef_msg a b)
    | _ => .panic "index out of bounds"

/-- `less_eq` from `ops.rs`, as `less` with non-strict comparison. -/
def less_eq (args : List Expr) (_env : Env) : Outcome :=
  match ensure_args "[<=]" args 2 with
  | .error e => .err e
  | .ok () =>
    match args with
    | Expr.Int a :: Expr.Int b :: _ => .ok (.Bool (decide (a ≤ b)))
    | Expr.Flt a :: Expr.Flt b :: _ => .ok (.Bool (a.le b))
    | Expr.Str a :: Expr.Str b :: _ => .ok (.Bool (decide (a ≤ b)))
    | a :: b :: _ => .err (cmp_undef_msg a b)
    | _ => .panic "index out of bounds"

/-- `greater` from `ops.rs`, as `less` with the reversed comparison. -/
def greater (args : List Expr) (_env : Env) : Outcome :=
  match ensure_args "[>]" args 2 with
  | .error e => .err e
  | .ok () =>
    match args with
    | Expr.Int a :: Expr.Int b :: _ => .ok (.Bool (decide (b < a)))
    | Expr.Flt a :: Expr.Flt b :: _ => .ok (.Bool (b.lt a))
    | Expr.Str a :: Expr.Str b :: _ => .ok (.Bool (decide (b < a)))
    | a :: b :: _ => .err (cmp_undef_msg a b)
    | _ => .panic "index out of bounds"

/-- `greater_eq` from `ops.rs`, as `less_eq` with the reversed comparison. -/
def greater_eq (args : List Expr) (_env : Env) : Outcome :=
  match ensure_args "[>=]" args 2 with
  | .error e => .err e
  | .ok () =>
    match args with
    | Expr.Int a :: Expr.Int b :: _ => .ok (.Bool (decide (b ≤ a)))
    | Expr.Flt a :: Expr.Flt b :: _ => .ok (.Bool (b.le a))
    | Expr.Str a :: Expr.Str b :: _ => .ok (.Bool (decide (b ≤ a)))
    | a :: b :: _ => .err (cmp_undef_msg a b)
    | _ => .panic "index out of bounds"

/-- The `map(boolean).collect::<Option<Vec<_>>>()` step shared by `and` and
`or`: all the boolean payloads, or `none` as soon as any argument is not a
`Bool`. -/
def collectBools : List Expr → Option (List Bool)
  | [] => some []
  | a :: rest_ =>
    match boolean a with
    | none => none
    | some b =>
      match collectBools rest_ with
      | none => none
      | some bs => some (b :: bs)

/-- `and` from `ops.rs`: every argument must be a `Bool` (the `collect` over
`Option` fails on the first non-boolean), then the conjunction of all. -/
def and (args : List Expr) (_env : Env) : Outcome :=
  match collectBools args with
  | none => .err (.Msg "#[and] expected boolean argument")
  | some bools => .ok (.Bool (bools.all id))

/-- `or` from `ops.rs`: every argument must be a `Bool`, then the
disjunction of all. -/
def or (args : List Expr) (_env : Env) : Outcome :=
  match collectBools args with
  | none => .err (.Msg "#[or] expected boolean argument")
  | some bools => .ok (.Bool (bools.any id))

/-- `first` from `ops.rs`: exactly one argument; the head of a `List` or
`Vector`, `Nil` when the sequence is empty; type error otherwise. -/
def first (args : List Expr) (_env : Env) : Outcome :=
  match ensure_args "#[first]" args 1 with
  | .error e => .err e
  | .ok () =>
    match args with
    | Expr.List l :: _ => .ok (l.headD Expr.Nil)
    | Expr.Vector q :: _ => .ok (q.headD Expr.Nil)
    | _ :: _ => .err (.Msg "#[first] expected list")
    | [] => .panic "index out of bounds"

/-- `rest` from `ops.rs`.  NOTE: the source performs no arity check and
indexes `args[0]` directly, so an empty argument list panics. -/
def rest (args : List Expr) (_env : Env) : Outcome :=
  match args with
  | [] => .panic "index out of bounds: the len is 0 but the index is 0"
  | Expr.List l :: _ =>
    .ok (match l with
      | [] => Expr.Nil
      | _ :: t => Expr.List t)
  | Expr.Vector v :: _ =>
    .ok (match v with
      | [] => Expr.Nil
      | _ :: t => Expr.Vector t)
  | _ :: _ => .err (.Msg "#[rest] expected list")

/-- `cons` from `ops.rs`.  NOTE: after checking for exactly two arguments
the source matches on `args[2]` (not `args[1]`), which is out of bounds for
a two-element slice, so the match panics before any sequence is built; the
`args[1]`-as-item branches below are therefore unreachable. -/
def cons (args : List Expr) (_env : Env) : Outcome :=
  match ensure_args "cons]" args 2 with
  | .error e => .err e
  | .ok () =>
    match args.get? 2 with
    | none => .panic "index out of bounds: the len is 2 but the index is 2"
    | some seq =>
      match seq with
      | Expr.List l =>
        match args.get? 1 with
        | none => .panic "index out of bounds"
        | some item => .ok (.List (item :: l))
      | Expr.Vector v =>
        match args.get? 1 with
        | none => .panic "index out of bounds"
        | some item => .ok (.Vector (v ++ [item]))
      | _ => .err (.Msg "#[cons] expected list")

/-- `exit` from `ops.rs`: ignores its arguments and returns the `Exit(0)`
control condition through the error channel. -/
def exit (_args : List Expr) (_env : Env) : Outcome :=
  .err (.Exit 0)

/-- The result of one `readline` call in `main.rs` (the line-editing
collaborator): a line of text, an interrupt, end of input, or some other
read failure. -/
inductive ReadResult where
  | line (s : String)
  | interrupted
  | eof
  | otherFailure

/-- What one iteration of the REPL loop in `main.rs` does with its input.
NOTE: the loop in the source has no action that terminates the process with
an explicit status — it only breaks out of the loop (so `main` returns
normally) or prints something and continues. -/
inductive LoopAction where
  | breakLoop
  | printValueAndContinue (v : Expr)
  | printErrorAndContinue (e : ErrorKind)
  | printFatalAndBreak

/-- One iteration of the REPL loop in `main.rs`, lines 17–37.  `evalLine`
abstracts `parse_Lang(&line).map_err(..).and_then(|x| x.eval())`, the
parse-then-eval pipeline whose source is not in the tree.  A line that is
literally `exit` or `quit` breaks the loop before parsing; otherwise the
evaluation result is printed — `map(|v| println)` on success and
`map_err(|e| println)` on ANY error, with no case analysis on the error
kind; interrupt and end-of-file break the loop; any other read failure is
printed and breaks. -/
def loop_step (r : ReadResult) (evalLine : String → Except ErrorKind Expr) :
    LoopAction :=
  match r with
  | .line s =>
    if s = "exit" ∨ s = "quit" then .breakLoop
    else
      match evalLine s with
      | .ok v => .printValueAndContinue v
      | .error e => .printErrorAndContinue e
  | .interrupted => .breakLoop
  | .eof => .breakLoop
  | .otherFailure => .printFatalAndBreak

/-! Forms of the arithmetic results, used to state the promotion rule:
each is the integer (wrapping i64) or float fold that the corresponding
branch of the builtin computes. -/

/-- The i64 sum of the integer views of the arguments. -/
def intSum (args : List Expr) : Int :=
  (args.map toInt).foldl (fun a b => wrap64 (a + b)) 0

/-- The f64 sum of the float views of the arguments. -/
def fltSum (args : List Expr) : FloatVal :=
  (args.map toFlt).foldl FloatVal.add (.finite 0)

/-- The i64 product of the integer views of the arguments. -/
def intProd (args : List Expr) : Int :=
  (args.map toInt).foldl (fun a b => wrap64 (a * b)) 1

/-- The f64 product of the float views of the arguments. -/
def fltProd (args : List Expr) : FloatVal :=
  (args.map toFlt).foldl FloatVal.mul (.finite 1)

/-- The integer form of `-`: unary negation for one argument, otherwise the
left fold of subtraction from the first argument. -/
def subIntForm (args : List Expr) : Int :=
  match args.map toInt with
  | [x] => wrap64 (-x)
  | x :: r => r.foldl (fun a b => wrap64 (a - b)) x
  | [] => 0

/-- The float form of `-`: unary negation for one argument, otherwise the
left fold of subtraction from the first argument. -/
def subFltForm (args : List Expr) : FloatVal :=
  match args.map toFlt with
  | [x] => x.neg
  | x :: r => r.foldl FloatVal.sub x
  | [] => .nan

/-- The float form of `/` on two or more arguments: the left fold of float
division from the first argument. -/
def divFltForm (args : List Expr) : FloatVal :=
  match args.map toFlt with
  | x :: r => r.foldl FloatVal.div x
  | [] => .nan

/-- The integer form of `/` on two or more arguments: the zero-checked fold
of t-division, as an outcome (ok, division-by-zero error, or the overflow
panic). -/
def divIntOutcome (args : List Expr) : Outcome :=
  match args.map toInt with
  | x :: r => (int_div_fold x r).toOutcome Expr.Int
  | [] => .panic "index out of bounds"

/-- The pairs for which the ordering builtins are defined: Int/Int, Flt/Flt
or Str/Str. -/
def comparable : Expr → Expr → Bool
  | .Int _, .Int _ => true
  | .Flt _, .Flt _ => true
  | .Str _, .Str _ => true
  | _, _ => false

/-! Shared helper lemmas about the argument-checking and promotion
plumbing. -/

/-- An argument count different from the required one makes `ensure_args`
fail. -/
theorem ensure_args_ne {name : String} {args : List Expr} {count : Nat}
    (h : args.length ≠ count) :
    ensure_args name args count =
      .error (.Msg (name ++ " expected " ++ toString count ++ " arguments")) := by
  simp [ensure_args, h]

/-- An argument count meeting the minimum makes `ensure_min_args` succeed. -/
theorem ensure_min_args_ok {name : String} {args : List Expr} {count : Nat}
    (h : count ≤ args.length) :
    ensure_min_args name args count = .ok () := by
  simp [ensure_min_args, h]

/-- With all-numeric arguments at least one of which is a float,
`numeric_op` runs the float closure on the widened arguments. -/
theorem numeric_op_flt {name : String} {args : List Expr}
    {fi : List Int → NumRes Int} {ff : List FloatVal → NumRes FloatVal}
    (h1 : args.all is_num = true) (h2 : args.any is_flt = true) :
    numeric_op name args fi ff = (ff (args.map toFlt)).toOutcome Expr.Flt := by
  simp [numeric_op, h1, h2]

/-- With all-integer arguments, `numeric_op` runs the integer closure. -/
theorem numeric_op_int {name : String} {args : List Expr}
    {fi : List Int → NumRes Int} {ff : List FloatVal → NumRes FloatVal}
    (h1 : args.all is_num = true) (h2 : args.any is_flt = false) :
    numeric_op name args fi ff = (fi (args.map toInt)).toOutcome Expr.Int := by
  simp [numeric_op, h1, h2]

/-- With any non-numeric argument, `numeric_op` is a type error. -/
theorem numeric_op_nonnum {name : String} {args : List Expr}
    {fi : List Int → NumRes Int} {ff : List FloatVal → NumRes FloatVal}
    (h1 : args.all is_num = false) :
    numeric_op name args fi ff =
      .err (.Msg ("#[" ++ name ++ "] expected numeric")) := by
  simp [numeric_op, h1]

/-- A list with a member whose `boolean` view is `none` fails to collect. -/
theorem collectBools_none {a : Expr} {args : List Expr} (hmem : a ∈ args)
    (hb : boolean a = none) : collectBools args = none := by
  induction args with
  | nil => cases hmem
  | cons x xs ih =>
    rcases List.mem_cons.mp hmem with h | h
    · subst h
      simp [collectBools, hb]
    · have hxs := ih h
      unfold collectBools
      rw [hxs]
      cases boolean x <;> simp

/-- A non-empty all-`is_num` list with no float member forces every element
to be an `Int`; in particular the list is not empty when some member is a
float. -/
theorem any_is_flt_ne_nil {args : List Expr} (h : args.any is_flt = true) :
    args ≠ [] := by
  intro he
  subst he
  simp at h

/-- Claim C8: `first` of an empty `List` and of an empty `Vector` yields
`Nil` (not an error), and so does `rest` of either empty sequence. -/
theorem claim_C8 (env : Env) :
    first [Expr.List []] env = .ok .Nil ∧
    first [Expr.Vector []] env = .ok .Nil ∧
    rest [Expr.List []] env = .ok .Nil ∧
    rest [Expr.Vector []] env = .ok .Nil :=
  ⟨rfl, rfl, rfl, rfl⟩

/-- Claim C9: on the empty argument list `and` returns `Bool(true)` and
`or` returns `Bool(false)`, the identity elements of conjunction and
disjunction, rather than an arity error. -/
theorem claim_C9 (env : Env) :
    and [] env = .ok (.Bool true) ∧ or [] env = .ok (.Bool false) :=
  ⟨rfl, rfl⟩

/-- Claim C10: `exit` ignores its arguments entirely and returns the
`Exit(0)` control condition for every argument list; no argument changes
the reported code. -/
theorem claim_C10 (args : List Expr) (env : Env) :
    exit args env = .err (.Exit 0) :=
  rfl

/-- Claim C1 (code bug): after its two-argument arity check, `cons` matches
on `args[2]` — out of bounds for a two-element slice — so
`cons(x, List([]))` and `cons(x, Vector([]))` both panic instead of
returning the one-element sequence the claim (and the spec) state. -/
theorem claim_C1 :
    cons [Expr.Int 1, Expr.List []] env0 =
      .panic "index out of bounds: the len is 2 but the index is 2" ∧
    cons [Expr.Int 1, Expr.Vector []] env0 =
      .panic "index out of bounds: the len is 2 but the index is 2" :=
  ⟨rfl, rfl⟩

/-- Claim C3 (code bug): `rest` performs no arity check and indexes
`args[0]` directly, so calling it with an empty argument list — an arity
violation — panics with an out-of-bounds index instead of returning a typed
error value. -/
theorem claim_C3 :
    rest [] env0 = .panic "index out of bounds: the len is 0 but the index is 0" :=
  rfl

/-- Claim C4 (code bug): `exit` does return the distinct `Exit(0)` condition
through the result channel, but the top-level loop in `main.rs` has no
special case for it: any evaluation error — `Exit(0)` included — is handled
by the same `map_err(|e| println)` and the loop continues, so evaluating
`(exit)` prints the condition instead of terminating the process with
code 0. -/
theorem claim_C4 :
    exit [] env0 = .err (.Exit 0) ∧
    ∀ f : String → Except ErrorKind Expr, f "(exit)" = .error (.Exit 0) →
      loop_step (.line "(exit)") f = .printErrorAndContinue (.Exit 0) := by
  refine ⟨rfl, fun f h => ?_⟩
  simp [loop_step, h]

/-- Closed instance of the hypothesis of `claim_C4`, at the constant
evaluation function returning `Exit(0)`. -/
theorem claim_C4_witness :
    loop_step (.line "(exit)") (fun _ => .error (.Exit 0)) =
      .printErrorAndContinue (.Exit 0) :=
  claim_C4.2 (fun _ => .error (.Exit 0)) rfl

/-- Counterexample to claim C2 as stated: the one-argument inverse form with
the zero integer divisor returns `Flt(inf)` — no "division by zero" error is
raised. -/
theorem claim_C2_cex :
    div [Expr.Int 0] env0 = .ok (.Flt .inf) ∧
    (div [Expr.Int 0] env0).isErr = false :=
  ⟨rfl, rfl⟩

/-- A non-empty shape for any argument list with a float member. -/
theorem exists_cons_of_any_flt {args : List Expr}
    (h : args.any is_flt = true) : ∃ a l, args = a :: l := by
  cases args with
  | nil => simp at h
  | cons a l => exact ⟨a, l, rfl⟩

/-- All-numeric arguments with a float member put `sub` in float mode:
unary negation or the float subtraction fold. -/
theorem sub_flt_mode {args : List Expr} {env : Env}
    (h1 : args.all is_num = true) (h2 : args.any is_flt = true) :
    sub args env = .ok (.Flt (subFltForm args)) := by
  obtain ⟨a, l, rfl⟩ := exists_cons_of_any_flt h2
  rw [sub.eq_def, ensure_min_args_ok (by simp)]
  simp only [h1, Bool.not_true, if_false]
  cases l with
  | nil =>
    have ha : is_flt a = true := by simpa using h2
    cases a <;> simp_all [is_flt]
    rfl
  | cons b l2 =>
    rw [if_neg (by simp), numeric_op_flt h1 h2]
    rfl

/-- All-integer arguments put `sub` in integer mode: unary negation or the
wrapping integer subtraction fold. -/
theorem sub_int_mode {args : List Expr} {env : Env}
    (h1 : args.all is_num = true) (h2 : args.any is_flt = false)
    (hlen : 1 ≤ args.length) :
    sub args env = .ok (.Int (subIntForm args)) := by
  obtain ⟨a, l, rfl⟩ : ∃ a l, args = a :: l := by
    cases args with
    | nil => simp at hlen
    | cons a l => exact ⟨a, l, rfl⟩
  rw [sub.eq_def, ensure_min_args_ok (by simp)]
  simp only [h1, Bool.not_true, if_false]
  cases l with
  | nil =>
    have ha : is_num a = true := by simpa using h1
    have hb : is_flt a = false := by simpa using h2
    cases a <;> simp_all [is_num, is_flt]
    rfl
  | cons b l2 =>
    rw [if_neg (by simp), numeric_op_int h1 h2]
    rfl

/-- A non-numeric argument makes `sub` a type error. -/
theorem sub_nonnum {args : List Expr} {env : Env}
    (h1 : args.all is_num = false) :
    sub args env = .err (.Msg "#[-] expected numeric") := by
  obtain ⟨a, l, rfl⟩ : ∃ a l, args = a :: l := by
    cases args with
    | nil => simp at h1
    | cons a l => exact ⟨a, l, rfl⟩
  rw [sub.eq_def, ensure_min_args_ok (by simp)]
  simp [h1]

/-- All-numeric arguments with a float member put `div`, given at least two
arguments, in float mode: the unguarded float division fold. -/
theorem div_flt_mode {args : List Expr} {env : Env}
    (h1 : args.all is_num = true) (h2 : args.any is_flt = true)
    (hlen : 2 ≤ args.length) :
    div args env = .ok (.Flt (divFltForm args)) := by
  obtain ⟨a, l, rfl⟩ := exists_cons_of_any_flt h2
  obtain ⟨b, l2, rfl⟩ : ∃ b l2, l = b :: l2 := by
    cases l with
    | nil => simp at hlen
    | cons b l2 => exact ⟨b, l2, rfl⟩
  rw [div.eq_def, ensure_min_args_ok (by simp)]
  simp only [h1, Bool.not_true, if_false]
  rw [if_neg (by simp), numeric_op_flt h1 h2]
  rfl

/-- All-integer arguments put `div`, given at least two arguments, in
integer mode: the zero-checked t-division fold. -/
theorem div_int_mode {args : List Expr} {env : Env}
    (h1 : args.all is_num = true) (h2 : args.any is_flt = false)
    (hlen : 2 ≤ args.length) :
    div args env = divIntOutcome args := by
  obtain ⟨a, l, rfl⟩ : ∃ a l, args = a :: l := by
    cases args with
    | nil => simp at hlen
    | cons a l => exact ⟨a, l, rfl⟩
  obtain ⟨b, l2, rfl⟩ : ∃ b l2, l = b :: l2 := by
    cases l with
    | nil => simp at hlen
    | cons b l2 => exact ⟨b, l2, rfl⟩
  rw [div.eq_def, ensure_min_args_ok (by simp)]
  simp only [h1, Bool.not_true, if_false]
  rw [if_neg (by simp), numeric_op_int h1 h2]
  rfl

/-- A non-numeric argument makes `div` a type error (with the source's
copy-pasted `#[-]` message). -/
theorem div_nonnum {args : List Expr} {env : Env}
    (h1 : args.all is_num = false) :
    div args env = .err (.Msg "#[-] expected numeric") := by
  obtain ⟨a, l, rfl⟩ : ∃ a l, args = a :: l := by
    cases args with
    | nil => simp at h1
    | cons a l => exact ⟨a, l, rfl⟩
  rw [div.eq_def, ensure_min_args_ok (by simp)]
  simp [h1]

/-- Mapping back through the integer view undoes wrapping in `Expr.Int`. -/
theorem map_toInt_int (ds : List Int) : (ds.map Expr.Int).map toInt = ds := by
  induction ds with
  | nil => rfl
  | cons d t ih => simp [toInt, ih]

/-- The magnitude of a t-division quotient never exceeds the dividend's. -/
theorem natAbs_tdiv_le (x d : Int) : (Int.tdiv x d).natAbs ≤ x.natAbs := by
  rw [Int.natAbs_tdiv]
  exact Nat.div_le_self _ _

/-- When the first argument's magnitude stays below `2^63` — every i64
except `i64::MIN` — the running quotient can never hit the
`i64::MIN / -1` overflow panic (t-division never grows the magnitude), so
the fold reaches any zero divisor and reports the division-by-zero
error. -/
theorem int_div_fold_zero {x : Int} {ds : List Int} (hx : x.natAbs < 2 ^ 63)
    (hz : 0 ∈ ds) : int_div_fold x ds = .err (.Msg "division by zero") := by
  induction ds generalizing x with
  | nil => cases hz
  | cons d ds2 ih =>
    unfold int_div_fold
    by_cases hd : d = 0
    · simp [hd]
    · rcases List.mem_cons.mp hz with h0 | h0
      · exact absurd h0.symm hd
      · have hno : ¬(x = -(2 ^ 63) ∧ d = -1) := by
          rintro ⟨hxe, -⟩
          subst hxe
          exact absurd hx (by decide)
        rw [if_neg hd, if_neg hno]
        exact ih (lt_of_le_of_lt (natAbs_tdiv_le x d) hx) h0

/-- Claim C2 (corrected): in the two-or-more-argument all-integer form of
`div`, any zero divisor yields the "division by zero" error as long as the
running quotient never hits the `i64::MIN / -1` overflow — guaranteed
whenever the first argument is an i64 other than `i64::MIN`; at
`div([Int(i64::MIN), Int(-1), Int(0)])` the fold instead panics with
divide overflow before reaching the zero divisor.  Float division is not
intercepted (it is the plain IEEE fold, so `div([Flt(4.0), Flt(0.0)])` is
`Flt(inf)`), and the one-argument inverse form is computed as the float
reciprocal `1.0 / x` with no zero guard, so `div([Int(0)])` yields
`Flt(inf)`, not the division-by-zero error the original claim states. -/
theorem claim_C2 (x : Int) (ds : List Int) (a b : FloatVal) (env : Env)
    (hx : x.natAbs < 2 ^ 63) (hz : 0 ∈ ds) :
    div (Expr.Int x :: ds.map Expr.Int) env = .err (.Msg "division by zero") ∧
    div [Expr.Int (-(2 ^ 63)), Expr.Int (-1), Expr.Int 0] env =
      .panic "attempt to divide with overflow" ∧
    div [Expr.Flt a, Expr.Flt b] env = .ok (.Flt (FloatVal.div a b)) ∧
    div [Expr.Int 0] env = .ok (.Flt .inf) := by
  refine ⟨?_, rfl, rfl, rfl⟩
  have h1 : (Expr.Int x :: ds.map Expr.Int).all is_num = true := by
    simp [List.all_map, is_num, Function.comp]
  have h2 : (Expr.Int x :: ds.map Expr.Int).any is_flt = false := by
    simp [List.any_map, is_flt, Function.comp]
  have hlen : 2 ≤ (Expr.Int x :: ds.map Expr.Int).length := by
    cases ds with
    | nil => cases hz
    | cons d ds2 => simp
  have hmap : (Expr.Int x :: ds.map Expr.Int).map toInt = x :: ds := by
    rw [List.map_cons, map_toInt_int]
    rfl
  rw [div_int_mode h1 h2 hlen, divIntOutcome.eq_def, hmap]
  show NumRes.toOutcome Expr.Int (int_div_fold x ds) = _
  rw [int_div_fold_zero hx hz]
  rfl

/-- Closed instance of `claim_C2` at `4 / 0` in both modes. -/
theorem claim_C2_witness :
    div [Expr.Int 4, Expr.Int 0] env0 = .err (.Msg "division by zero") ∧
    div [Expr.Flt (.finite 4), Expr.Flt (.finite 0)] env0 = .ok (.Flt .inf) := by
  have h := claim_C2 4 [0] (.finite 4) (.finite 0) env0 (by decide) (by simp)
  exact ⟨h.1, h.2.2.1.trans rfl⟩

/-- Claim C7: `and` and `or` require every argument to be strictly
boolean-typed — if any member of the argument list is not a `Bool` the call
is a type error, with no argument exempt (no short-circuiting) — and on
all-`Bool` arguments `and` is the conjunction and `or` the disjunction. -/
theorem claim_C7 (args : List Expr) (bs : List Bool) (a : Expr) (env : Env) :
    (a ∈ args → boolean a = none →
      and args env = .err (.Msg "#[and] expected boolean argument") ∧
      or args env = .err (.Msg "#[or] expected boolean argument")) ∧
    (collectBools args = some bs →
      and args env = .ok (.Bool (bs.all id)) ∧
      or args env = .ok (.Bool (bs.any id))) := by
  constructor
  · intro hmem hb
    have hn := collectBools_none hmem hb
    rw [and, or, hn]
    exact ⟨rfl, rfl⟩
  · intro hs
    rw [and, or, hs]
    exact ⟨rfl, rfl⟩

/-- Closed instances of `claim_C7`: a non-boolean second argument is a type
error even though the first argument `false` alone would determine the
result of `and`, and all-boolean arguments give the conjunction and the
disjunction. -/
theorem claim_C7_witness :
    and [Expr.Bool false, Expr.Int 1] env0 =
      .err (.Msg "#[and] expected boolean argument") ∧
    and [Expr.Bool true, Expr.Bool false] env0 = .ok (.Bool false) ∧
    or [Expr.Bool true, Expr.Bool false] env0 = .ok (.Bool true) := by
  refine ⟨?_, ?_, ?_⟩
  · exact ((claim_C7 [Expr.Bool false, Expr.Int 1] [] (Expr.Int 1) env0).1
      (by simp) rfl).1
  · exact ((claim_C7 [Expr.Bool true, Expr.Bool false] [true, false]
      Expr.Nil env0).2 rfl).1
  · exact ((claim_C7 [Expr.Bool true, Expr.Bool false] [true, false]
      Expr.Nil env0).2 rfl).2

/-- Claim C6: the comparison builtins require exactly two arguments; `=` is
structural equality of any two values; the four ordering builtins return a
boolean exactly for Int/Int, Flt/Flt and Str/Str pairs and a
comparison-undefined error for every other pairing, Int versus Flt
included. -/
theorem claim_C6 (args : List Expr) (a b : Expr) (na nb : Int)
    (fa fb : FloatVal) (sa sb : String) (env : Env) :
    (args.length ≠ 2 →
      (equal args env).isErr = true ∧ (less args env).isErr = true ∧
      (less_eq args env).isErr = true ∧ (greater args env).isErr = true ∧
      (greater_eq args env).isErr = true) ∧
    equal [a, b] env = .ok (.Bool (beq a b)) ∧
    (less [Expr.Int na, Expr.Int nb] env = .ok (.Bool (decide (na < nb))) ∧
      less [Expr.Flt fa, Expr.Flt fb] env = .ok (.Bool (fa.lt fb)) ∧
      less [Expr.Str sa, Expr.Str sb] env = .ok (.Bool (decide (sa < sb))) ∧
      less_eq [Expr.Int na, Expr.Int nb] env = .ok (.Bool (decide (na ≤ nb))) ∧
      less_eq [Expr.Flt fa, Expr.Flt fb] env = .ok (.Bool (fa.le fb)) ∧
      less_eq [Expr.Str sa, Expr.Str sb] env = .ok (.Bool (decide (sa ≤ sb))) ∧
      greater [Expr.Int na, Expr.Int nb] env = .ok (.Bool (decide (nb < na))) ∧
      greater [Expr.Flt fa, Expr.Flt fb] env = .ok (.Bool (fb.lt fa)) ∧
      greater [Expr.Str sa, Expr.Str sb] env = .ok (.Bool (decide (sb < sa))) ∧
      greater_eq [Expr.Int na, Expr.Int nb] env = .ok (.Bool (decide (nb ≤ na))) ∧
      greater_eq [Expr.Flt fa, Expr.Flt fb] env = .ok (.Bool (fb.le fa)) ∧
      greater_eq [Expr.Str sa, Expr.Str sb] env = .ok (.Bool (decide (sb ≤ sa)))) ∧
    (comparable a b = false →
      less [a, b] env = .err (cmp_undef_msg a b) ∧
      less_eq [a, b] env = .err (cmp_undef_msg a b) ∧
      greater [a, b] env = .err (cmp_undef_msg a b) ∧
      greater_eq [a, b] env = .err (cmp_undef_msg a b)) := by
  refine ⟨?_, rfl, ⟨rfl, rfl, rfl, rfl, rfl, rfl, rfl, rfl, rfl, rfl, rfl, rfl⟩, ?_⟩
  · intro h
    rw [equal.eq_def, less.eq_def, less_eq.eq_def, greater.eq_def,
      greater_eq.eq_def, ensure_args_ne h, ensure_args_ne h, ensure_args_ne h,
      ensure_args_ne h, ensure_args_ne h]
    exact ⟨rfl, rfl, rfl, rfl, rfl⟩
  · intro h
    cases a <;> cases b <;>
      first
        | exact ⟨rfl, rfl, rfl, rfl⟩
        | simp [comparable] at h

/-- Closed instances of `claim_C6`: Int versus Flt is a comparison-undefined
error, a wrong arity is an error, `=` decides structural equality, and an
Int/Int pair orders normally. -/
theorem claim_C6_witness :
    less [Expr.Int 1, Expr.Flt (.finite 2)] env0 =
      .err (cmp_undef_msg (Expr.Int 1) (Expr.Flt (.finite 2))) ∧
    (less [] env0).isErr = true ∧
    equal [Expr.Int 1, Expr.Flt (.finite 2)] env0 = .ok (.Bool false) ∧
    less [Expr.Int 3, Expr.Int 4] env0 = .ok (.Bool true) := by
  have h := claim_C6 [] (Expr.Int 1) (Expr.Flt (.finite 2)) 3 4
    FloatVal.nan FloatVal.nan "" "" env0
  exact ⟨(h.2.2.2 rfl).1, (h.1 (by decide)).2.1, h.2.1, h.2.2.1.1⟩

/-- Claim C5 (corrected): numeric promotion for `+ - * /` — all-numeric
arguments with a float member are widened and the float form applied,
all-integer arguments get the integer form, and a non-numeric argument is a
type error — except that the one-argument form of `/` always computes the
float reciprocal, so it is excluded here (`/` below has at least two
arguments; `-` needs its one-argument arity minimum). -/
theorem claim_C5 (args : List Expr) (env : Env) :
    (args.all is_num = true → args.any is_flt = true →
      add args env = .ok (.Flt (fltSum args)) ∧
      mul args env = .ok (.Flt (fltProd args)) ∧
      sub args env = .ok (.Flt (subFltForm args)) ∧
      (2 ≤ args.length → div args env = .ok (.Flt (divFltForm args)))) ∧
    (args.all is_num = true → args.any is_flt = false →
      add args env = .ok (.Int (intSum args)) ∧
      mul args env = .ok (.Int (intProd args)) ∧
      (1 ≤ args.length → sub args env = .ok (.Int (subIntForm args))) ∧
      (2 ≤ args.length → div args env = divIntOutcome args)) ∧
    (args.all is_num = false →
      add args env = .err (.Msg "#[+] expected numeric") ∧
      mul args env = .err (.Msg "#[*] expected numeric") ∧
      sub args env = .err (.Msg "#[-] expected numeric") ∧
      div args env = .err (.Msg "#[-] expected numeric")) := by
  refine ⟨fun h1 h2 => ⟨?_, ?_, sub_flt_mode h1 h2, fun hl => div_flt_mode h1 h2 hl⟩,
    fun h1 h2 => ⟨?_, ?_, fun hl => sub_int_mode h1 h2 hl,
      fun hl => div_int_mode h1 h2 hl⟩,
    fun h1 => ⟨?_, ?_, sub_nonnum h1, div_nonnum h1⟩⟩
  · exact numeric_op_flt h1 h2
  · exact numeric_op_flt h1 h2
  · exact numeric_op_int h1 h2
  · exact numeric_op_int h1 h2
  · exact numeric_op_nonnum h1
  · exact numeric_op_nonnum h1

/-- Closed instances of `claim_C5`: the spec's own examples
`add([Int(2), Int(3)]) = Int(5)` and `add([Int(2), Flt(3.0)]) = Flt(5.0)`,
plus a type error for a string argument. -/
theorem claim_C5_witness :
    add [Expr.Int 2, Expr.Int 3] env0 = .ok (.Int 5) ∧
    add [Expr.Int 2, Expr.Flt (.finite 3)] env0 = .ok (.Flt (.finite 5)) ∧
    mul [Expr.Int 2, Expr.Str "x"] env0 = .err (.Msg "#[*] expected numeric") := by
  refine ⟨?_, ?_, ?_⟩
  · have h := ((claim_C5 [Expr.Int 2, Expr.Int 3] env0).2.1 rfl rfl).1
    exact h.trans (by norm_num [intSum, toInt, wrap64])
  · have h := ((claim_C5 [Expr.Int 2, Expr.Flt (.finite 3)] env0).1 rfl rfl).1
    exact h.trans (by norm_num [fltSum, toFlt, FloatVal.add])
  · exact ((claim_C5 [Expr.Int 2, Expr.Str "x"] env0).2.2 rfl).2.1

/-- Counterexample to claim C5 as stated: `div` applied to the all-integer
one-element list `[Int(4)]` does not apply the integer form of the operator
— it returns the float `Flt(0.25)`. -/
theorem claim_C5_cex :
    List.all [Expr.Int 4] is_num = true ∧
    List.any [Expr.Int 4] is_flt = false ∧
    div [Expr.Int 4] env0 = .ok (.Flt (.finite (1 / 4))) :=
  ⟨rfl, rfl, rfl⟩

end Telescope
